import Mathlib

/-!
# anticaptcha client: create task, poll, extract

A shallow embedding of `anticaptcha.go`.  The client talks to a remote
service through `http.Post`; the embedding makes that interaction explicit:

* the remote service is a function from the number of the request (0 for the
  first request of a run) to what `http.Post` and the body readers observe;
* every observable effect of the client (a request sent, a sleep, a log line)
  is appended to a trace;
* a call ends in a normal return, in `logger.Fatal` (the process exits), in a
  run-time panic, or is cut off by the fuel that bounds the polling loop.

The library calls are taken at their documented behaviour: `json.Marshal`
fails exactly on a NaN or infinite float, `Decoder.Decode` either reads the first
JSON value of the body or reports an error and leaves its target untouched, and
`http.Post` either fails or hands back a response.  Strings are Unicode text.
-/

namespace Anticaptcha

/-! ## Go values -/

/-- A Go `float64`, given by its IEEE 754 binary64 bit pattern. -/
structure Float64 where
  bits : Nat
  deriving DecidableEq, Repr

namespace Float64

/-- The eleven exponent bits. -/
def exponent (f : Float64) : Nat := (f.bits / 2 ^ 52) % 2 ^ 11

/-- The fifty-two fraction bits. -/
def fraction (f : Float64) : Nat := f.bits % 2 ^ 52

/-- Go `math.IsNaN`. -/
def isNaN (f : Float64) : Bool := f.exponent == 2047 && f.fraction != 0

/-- Go `math.IsInf(f, 0)`. -/
def isInf (f : Float64) : Bool := f.exponent == 2047 && f.fraction == 0

/-- Go `math.NaN()`, which is `Float64frombits(0x7FF8000000000001)`. -/
def NaN : Float64 := ⟨0x7FF8000000000001⟩

end Float64

/-- The dynamic values an `interface{}` holds in this program: what
`encoding/json` decodes into an `interface{}` (nil, bool, float64, string,
`[]interface{}`, `map[string]interface{}`), and `int` for `Proxy.Port`.
A map is kept as its list of entries; indexing takes the first entry of a key. -/
inductive Value where
  | nil : Value
  | bool (b : Bool) : Value
  | float64 (f : Float64) : Value
  | int (n : Int) : Value
  | string (s : String) : Value
  | slice (xs : List Value) : Value
  | map (kvs : List (String × Value)) : Value

/-- A Go `map[string]interface{}`. -/
abbrev GoMap := List (String × Value)

/-- The comma-ok index expression `v, ok := m[key]`. -/
def GoMap.lookup (m : GoMap) (key : String) : Option Value :=
  match m with
  | [] => none
  | (k, v) :: rest => if k = key then some v else GoMap.lookup rest key

/-- The index expression `m[key]`: the nil interface when the key is absent. -/
def GoMap.index (m : GoMap) (key : String) : Value :=
  match m.lookup key with
  | some v => v
  | none => Value.nil

/-! ## Failures, events, outcomes -/

/-- What makes a call stop abnormally. -/
inductive Fault where
  | unsupportedValue (f : Float64)
  | transport
  | read
  | nilDereference
  | typeAssertion
  deriving DecidableEq, Repr

/-- How a call ends. `fatal` is `logger.Fatal` (log, then `os.Exit(1)`),
`panic` is a run-time panic, `outOfFuel` cuts a polling loop that has not
ended within the fuel given. -/
inductive Outcome (α : Type) where
  | ok (a : α) : Outcome α
  | fatal (e : Fault) : Outcome α
  | panic (e : Fault) : Outcome α
  | outOfFuel : Outcome α

/-- An observable effect: a call of `http.Post` with its endpoint and the
document sent, a `time.Sleep`, or a line written by `logger.Println`. -/
inductive Event where
  | post (url : String) (body : Value) : Event
  | sleep (seconds : Nat) : Event
  | log (line : String) : Event

/-- What `json.NewDecoder(resp.Body).Decode` finds in a response body.
`value v` is the first JSON value of the body; the decoder stops there and
does not look at what follows it.  `noValue` is a body in which it finds no
complete first value (an empty body, or text that breaks JSON syntax before a
first value ends), so that `Decode` returns an error. -/
inductive Decoded where
  | noValue : Decoded
  | value (v : Value) : Decoded

/-- A response as the client reads it: the document the decoder finds, and
what `ioutil.ReadAll` returns afterwards (`none` when it fails). -/
structure Response where
  decoded : Decoded
  remainder : Option String

/-- The result of `http.Post`. -/
inductive HttpResult where
  | err : HttpResult
  | resp (r : Response) : HttpResult

/-- The remote service: what the n-th request of a run is answered with. -/
abbrev Remote := Nat → HttpResult

/-- The state of a run: requests made so far, and the trace. -/
structure World where
  calls : Nat
  trace : List Event

/-- A computation against a remote service. -/
def Prog (α : Type) : Type := Remote → World → Outcome α × World

namespace Prog

/-- Normal return. -/
def ret {α : Type} (a : α) : Prog α := fun _ w => (Outcome.ok a, w)

/-- Sequencing: an abnormal end of the first part ends the whole. -/
def andThen {α β : Type} (p : Prog α) (f : α → Prog β) : Prog β := fun remote w =>
  match p remote w with
  | (Outcome.ok a, w1) => f a remote w1
  | (Outcome.fatal e, w1) => (Outcome.fatal e, w1)
  | (Outcome.panic e, w1) => (Outcome.panic e, w1)
  | (Outcome.outOfFuel, w1) => (Outcome.outOfFuel, w1)

instance : Monad Prog where
  pure := Prog.ret
  bind := Prog.andThen

/-- Append an event to the trace. -/
def emit (e : Event) : Prog Unit := fun _ w => (Outcome.ok (), { w with trace := w.trace ++ [e] })

/-- Stop with `logger.Fatal`. -/
def fatal {α : Type} (e : Fault) : Prog α := fun _ w => (Outcome.fatal e, w)

/-- Stop with a panic. -/
def panic {α : Type} (e : Fault) : Prog α := fun _ w => (Outcome.panic e, w)

/-- Stop because the fuel is used up. -/
def outOfFuel {α : Type} : Prog α := fun _ w => (Outcome.outOfFuel, w)

end Prog

/-! ## Library calls -/

mutual
/-- The first float that `json.Marshal` refuses (NaN or an infinity) in a value. -/
def unsupported : Value → Option Float64
  | Value.float64 f => if f.isNaN || f.isInf then some f else none
  | Value.slice xs => unsupportedList xs
  | Value.map kvs => unsupportedEntries kvs
  | _ => none
/-- The same through the elements of a slice. -/
def unsupportedList : List Value → Option Float64
  | [] => none
  | x :: xs => (unsupported x).orElse (fun _ => unsupportedList xs)
/-- The same through the entries of a map. -/
def unsupportedEntries : List (String × Value) → Option Float64
  | [] => none
  | (_, v) :: kvs => (unsupported v).orElse (fun _ => unsupportedEntries kvs)
end

/-- Go `json.Marshal` followed by `if err != nil { logger.Fatal(err) }`:
the document to send, or the process exits. -/
def marshalOrFatal (body : Value) : Prog Value :=
  match unsupported body with
  | some f => Prog.fatal (Fault.unsupportedValue f)
  | none => Prog.ret body

/-- Go `http.Post(url, "application/json", body)`: the request goes out and
the remote service answers. -/
def httpPost (url : String) (body : Value) : Prog HttpResult := fun remote w =>
  (Outcome.ok (remote w.calls), { calls := w.calls + 1, trace := w.trace ++ [Event.post url body] })

/-- Go `http.Post` followed by `if err != nil { logger.Fatal(err) }`. -/
def postOrFatal (url : String) (body : Value) : Prog Response := do
  let r ← httpPost url body
  match r with
  | HttpResult.err => Prog.fatal Fault.transport
  | HttpResult.resp resp => Prog.ret resp

/-- The statements `responseBody := make(map[string]interface{})` and
`json.NewDecoder(resp.Body).Decode(&responseBody)`, whose error is dropped:
a JSON object fills the map, anything else leaves it empty. -/
def decode (d : Decoded) : GoMap :=
  match d with
  | Decoded.value (Value.map kvs) => kvs
  | _ => []

/-- The statements `response, err := ioutil.ReadAll(resp.Body)`,
`if err != nil { panic(err) }`, `logger.Println(string(response))`. -/
def readAllAndLog (r : Response) : Prog Unit :=
  match r.remainder with
  | none => Prog.panic Fault.read
  | some s => Prog.emit (Event.log s)

/-- The type assertion `v.(float64)`. -/
def assertFloat64 (v : Value) : Prog Float64 :=
  match v with
  | Value.float64 f => Prog.ret f
  | _ => Prog.panic Fault.typeAssertion

/-- The type assertion `v.(map[string]interface{})`. -/
def assertMap (v : Value) : Prog GoMap :=
  match v with
  | Value.map kvs => Prog.ret kvs
  | _ => Prog.panic Fault.typeAssertion

/-- The type assertion `v.(string)`. -/
def assertString (v : Value) : Prog String :=
  match v with
  | Value.string s => Prog.ret s
  | _ => Prog.panic Fault.typeAssertion

/-! ## The client -/

/-- The proxy options. -/
structure Proxy where
  Type' : String
  Address : String
  Port : Int
  Login : String
  Password : String
  UserAgent : String

/-- The client: `Proxy` is a pointer in the source, `none` is the nil pointer. -/
structure Client where
  APIKey : String
  Proxy : Option Proxy

/-- The variable `sendInterval`, in seconds. -/
def sendInterval : Nat := 10

/-- The string of `baseURL.ResolveReference(&url.URL{Path: "/createTask"})`. -/
def createTaskURL : String := "https://api.anti-captcha.com/createTask"

/-- The string of `baseURL.ResolveReference(&url.URL{Path: "/getTaskResult"})`. -/
def getTaskResultURL : String := "https://api.anti-captcha.com/getTaskResult"

/-- Dereferencing `c.Proxy`: a nil pointer panics. -/
def derefProxy (c : Client) : Prog Proxy :=
  match c.Proxy with
  | none => Prog.panic Fault.nilDereference
  | some p => Prog.ret p

/-- Go `(*Client).createTaskRecaptcha`. -/
def createTaskRecaptcha (c : Client) (websiteURL recaptchaKey : String) : Prog Float64 := do
  let p ← derefProxy c
  let body := Value.map [
    ("clientKey", Value.string c.APIKey),
    ("task", Value.map [
      ("type", Value.string "NoCaptchaTask"),
      ("websiteURL", Value.string websiteURL),
      ("websiteKey", Value.string recaptchaKey),
      ("proxyType", Value.string p.Type'),
      ("proxyAddress", Value.string p.Address),
      ("proxyPort", Value.int p.Port),
      ("proxyLogin", Value.string p.Login),
      ("proxyPassword", Value.string p.Password),
      ("proxyAgent", Value.string p.UserAgent)])]
  let b ← marshalOrFatal body
  let resp ← postOrFatal createTaskURL b
  let responseBody := decode resp.decoded
  readAllAndLog resp
  match responseBody.lookup "taskId" with
  | none => pure Float64.NaN
  | some val => assertFloat64 val

/-- Go `(*Client).getTaskResult`. -/
def getTaskResult (c : Client) (taskID : Float64) : Prog GoMap := do
  let body := Value.map [
    ("clientKey", Value.string c.APIKey),
    ("taskId", Value.float64 taskID)]
  let b ← marshalOrFatal body
  let resp ← postOrFatal getTaskResultURL b
  let responseBody := decode resp.decoded
  readAllAndLog resp
  pure responseBody

/-- The loop condition `response["status"] == "processing"`: an interface
value equals a string only when it holds that string. -/
def statusIsProcessing (response : GoMap) : Bool :=
  match response.index "status" with
  | Value.string s => s == "processing"
  | _ => false

/-- The `for` loop shared by `SendRecaptcha` and `SendImage`, entered with the
first poll response; it returns the response the loop ends with.  Each unit of
fuel pays for one evaluation of the loop condition. -/
def pollLoop (c : Client) (taskID : Float64) : Nat → GoMap → Prog GoMap
  | 0, _ => Prog.outOfFuel
  | fuel + 1, response =>
    if statusIsProcessing response then do
      Prog.emit (Event.log "Result is not ready, waiting a few seconds to check again...")
      Prog.emit (Event.sleep sendInterval)
      let next ← getTaskResult c taskID
      pollLoop c taskID fuel next
    else do
      Prog.emit (Event.log "Result is ready.")
      pure response

/-- The return expression `response["solution"].(map[string]interface{})[field].(string)`. -/
def extract (response : GoMap) (field : String) : Prog String := do
  let solution ← assertMap (response.index "solution")
  assertString (GoMap.index solution field)

/-- Go `(*Client).SendRecaptcha`, its loop bounded by `fuel`. -/
def SendRecaptcha (fuel : Nat) (c : Client) (websiteURL recaptchaKey : String) : Prog String := do
  let taskID ← createTaskRecaptcha c websiteURL recaptchaKey
  let first ← getTaskResult c taskID
  let response ← pollLoop c taskID fuel first
  extract response "gRecaptchaResponse"

/-- Go `(*Client).createTaskImage`. -/
def createTaskImage (c : Client) (imgString : String) : Prog Float64 := do
  let body := Value.map [
    ("clientKey", Value.string c.APIKey),
    ("task", Value.map [
      ("type", Value.string "ImageToTextTask"),
      ("body", Value.string imgString)])]
  let b ← marshalOrFatal body
  let resp ← postOrFatal createTaskURL b
  let responseBody := decode resp.decoded
  assertFloat64 (responseBody.index "taskId")

/-- Go `(*Client).SendImage`, its loop bounded by `fuel`. -/
def SendImage (fuel : Nat) (c : Client) (imgString : String) : Prog String := do
  let taskID ← createTaskImage c imgString
  let first ← getTaskResult c taskID
  let response ← pollLoop c taskID fuel first
  extract response "text"

/-- The world a run starts in. -/
def World.init : World := { calls := 0, trace := [] }

/-- Run a computation from the start. -/
def run {α : Type} (p : Prog α) (remote : Remote) : Outcome α × World := p remote World.init

/-! ## Vocabulary of the statements -/

/-- The body of a `getTaskResult` request for a task. -/
def pollBody (c : Client) (taskID : Float64) : Value :=
  Value.map [("clientKey", Value.string c.APIKey), ("taskId", Value.float64 taskID)]

/-- The body of a `createTask` request for a reCAPTCHA, with the proxy `p`. -/
def recaptchaBody (c : Client) (p : Proxy) (websiteURL recaptchaKey : String) : Value :=
  Value.map [
    ("clientKey", Value.string c.APIKey),
    ("task", Value.map [
      ("type", Value.string "NoCaptchaTask"),
      ("websiteURL", Value.string websiteURL),
      ("websiteKey", Value.string recaptchaKey),
      ("proxyType", Value.string p.Type'),
      ("proxyAddress", Value.string p.Address),
      ("proxyPort", Value.int p.Port),
      ("proxyLogin", Value.string p.Login),
      ("proxyPassword", Value.string p.Password),
      ("proxyAgent", Value.string p.UserAgent)])]

/-- The body of a `createTask` request for an image. -/
def imageBody (c : Client) (imgString : String) : Value :=
  Value.map [
    ("clientKey", Value.string c.APIKey),
    ("task", Value.map [
      ("type", Value.string "ImageToTextTask"),
      ("body", Value.string imgString)])]

/-- A float that `json.Marshal` accepts: neither NaN nor an infinity. -/
def Float64.isFinite (f : Float64) : Bool := !(f.isNaN || f.isInf)

/-- The mapping a response decodes to, when the response arrived and its body
was read to the end without a transport error. -/
def received : HttpResult → Option GoMap
  | HttpResult.resp ⟨d, some _⟩ => some (decode d)
  | _ => none

/-- The response arrived, was read to the end, and its status is the string
"processing". -/
def answersProcessing (r : HttpResult) : Bool :=
  match received r with
  | some m =>
    match m.lookup "status" with
    | some (Value.string s) => s == "processing"
    | _ => false
  | none => false

/-- The answer of a mapping whose status is "ready" and whose solution is an
object holding a string under `field`. -/
def readyAnswer (field : String) (m : GoMap) : Option String :=
  match m.lookup "status", m.lookup "solution" with
  | some (Value.string s), some (Value.map solution) =>
    match GoMap.lookup solution field with
    | some (Value.string answer) => if s = "ready" then some answer else none
    | _ => none
  | _, _ => none

/-- A request to the `getTaskResult` endpoint. -/
def Event.isPoll : Event → Bool
  | Event.post url _ => url == getTaskResultURL
  | _ => false

/-- A sleep. -/
def Event.isSleep : Event → Bool
  | Event.sleep _ => true
  | _ => false

/-- The polls and sleeps of a trace, in order. -/
def pollsAndSleeps (t : List Event) : List Event := t.filter (fun e => e.isPoll || e.isSleep)

/-- The requests of a trace, in order: endpoint and body. -/
def requests : List Event → List (String × Value)
  | [] => []
  | Event.post url body :: rest => (url, body) :: requests rest
  | _ :: rest => requests rest

/-- One poll, then `n` times a sleep of `sendInterval` seconds and a poll. -/
def expectedPolling (c : Client) (taskID : Float64) : Nat → List Event
  | 0 => [Event.post getTaskResultURL (pollBody c taskID)]
  | n + 1 =>
    Event.post getTaskResultURL (pollBody c taskID) :: Event.sleep 10 :: expectedPolling c taskID n

/-- The claim's account of a finished polling run: `n + 1` polls and `n`
sleeps, laid out as one poll followed `n` times by a sleep of ten seconds and
a poll, after the one `createTask` request. -/
def polledTimes (c : Client) (taskID : Float64) (n : Nat) (w : World) : Prop :=
  w.calls = n + 2 ∧
  (w.trace.filter Event.isPoll).length = n + 1 ∧
  (w.trace.filter Event.isSleep).length = n ∧
  pollsAndSleeps w.trace = expectedPolling c taskID n

/-- The string under `field` in the object under "solution", when the mapping
has that shape. -/
def solutionField (field : String) (m : GoMap) : Option String :=
  match m.lookup "solution" with
  | some (Value.map solution) =>
    match GoMap.lookup solution field with
    | some (Value.string answer) => some answer
    | _ => none
  | _ => none

/-- The same remote service with every body in which the decoder finds no
JSON value replaced by the empty object. -/
def asEmptyObject (remote : Remote) : Remote := fun n =>
  match remote n with
  | HttpResult.resp ⟨Decoded.noValue, rest⟩ =>
    HttpResult.resp ⟨Decoded.value (Value.map []), rest⟩
  | r => r

/-- The requests of `w2` are those of `w1` followed by polls for `taskID` only. -/
def onlyPolls (c : Client) (taskID : Float64) (w1 w2 : World) : Prop :=
  ∃ n, requests w2.trace = requests w1.trace ++ List.replicate n (getTaskResultURL, pollBody c taskID)

/-! ## Concrete runs -/

/-- A proxy. -/
def exampleProxy : Proxy :=
  { Type' := "http", Address := "10.0.0.1", Port := 8080, Login := "user", Password := "secret",
    UserAgent := "Mozilla/5.0" }

/-- A client with a proxy. -/
def exampleClient : Client := { APIKey := "key", Proxy := some exampleProxy }

/-- The float64 42. -/
def fortyTwo : Float64 := ⟨0x4045000000000000⟩

/-- A response with a JSON document, read to the end. -/
def jsonReply (v : Value) : HttpResult := HttpResult.resp ⟨Decoded.value v, some ""⟩

/-- The response `{"taskId": 42}`. -/
def createdReply : HttpResult := jsonReply (Value.map [("taskId", Value.float64 fortyTwo)])

/-- The response `{"status": "processing"}`. -/
def processingReply : HttpResult := jsonReply (Value.map [("status", Value.string "processing")])

/-- The response `{"status":"ready","solution":{"gRecaptchaResponse":"03AG..."}}`. -/
def readyRecaptchaReply : HttpResult :=
  jsonReply (Value.map [("status", Value.string "ready"),
    ("solution", Value.map [("gRecaptchaResponse", Value.string "03AG...")])])

/-- The response `{"status":"ready","solution":{"text":"xk7q"}}`. -/
def readyImageReply : HttpResult :=
  jsonReply (Value.map [("status", Value.string "ready"),
    ("solution", Value.map [("text", Value.string "xk7q")])])

/-- The response `{"errorId": 12, "status": "failed"}`: no solution. -/
def failedReply : HttpResult :=
  jsonReply (Value.map [("errorId", Value.float64 ⟨0x4028000000000000⟩),
    ("status", Value.string "failed")])

/-- The response `{}`. -/
def emptyObjectReply : HttpResult := jsonReply (Value.map [])

/-- A response in whose body the decoder finds no JSON value, such as `<html>`. -/
def garbageReply : HttpResult := HttpResult.resp ⟨Decoded.noValue, some ""⟩

/-- The stub server of the specification's example: `{"taskId": 42}`, then ready. -/
def readyAtOnce : Remote := fun n =>
  match n with
  | 0 => createdReply
  | _ => readyRecaptchaReply

/-- A server that answers "processing" twice before the reCAPTCHA is ready. -/
def readyAfterTwo : Remote := fun n =>
  match n with
  | 0 => createdReply
  | 1 => processingReply
  | 2 => processingReply
  | _ => readyRecaptchaReply

/-- A server that answers "processing" once before the image text is ready. -/
def imageAfterOne : Remote := fun n =>
  match n with
  | 0 => createdReply
  | 1 => processingReply
  | _ => readyImageReply

/-- A server that answers "processing" once and then reports a failure. -/
def failsAfterOne : Remote := fun n =>
  match n with
  | 0 => createdReply
  | 1 => processingReply
  | _ => failedReply

/-- A server whose create-task response has no task identifier. -/
def withoutTaskId : Remote := fun n =>
  match n with
  | 0 => emptyObjectReply
  | _ => readyRecaptchaReply

/-- A server in whose bodies the decoder never finds a JSON value. -/
def neverJSON : Remote := fun _ => garbageReply

/-! ## How each operation runs -/

theorem bind_apply {α β : Type} (p : Prog α) (f : α → Prog β) (remote : Remote) (w : World) :
    (p >>= f) remote w = Prog.andThen p f remote w := rfl

theorem pure_apply {α : Type} (a : α) (remote : Remote) (w : World) :
    (pure a : Prog α) remote w = (Outcome.ok a, w) := rfl

theorem andThen_assoc {α β γ : Type} (p : Prog α) (f : α → Prog β) (g : β → Prog γ) :
    Prog.andThen (Prog.andThen p f) g = Prog.andThen p (fun a => Prog.andThen (f a) g) := by
  funext remote w
  simp only [Prog.andThen]
  rcases p remote w with ⟨o, w1⟩
  cases o <;> rfl

theorem getTaskResult_eq (c : Client) (taskID : Float64) (remote : Remote) (w : World) :
    getTaskResult c taskID remote w =
      if taskID.isNaN || taskID.isInf then (Outcome.fatal (Fault.unsupportedValue taskID), w)
      else
        match remote w.calls with
        | HttpResult.err =>
          (Outcome.fatal Fault.transport,
            ⟨w.calls + 1, w.trace ++ [Event.post getTaskResultURL (pollBody c taskID)]⟩)
        | HttpResult.resp ⟨_, none⟩ =>
          (Outcome.panic Fault.read,
            ⟨w.calls + 1, w.trace ++ [Event.post getTaskResultURL (pollBody c taskID)]⟩)
        | HttpResult.resp ⟨d, some s⟩ =>
          (Outcome.ok (decode d),
            ⟨w.calls + 1, w.trace ++ [Event.post getTaskResultURL (pollBody c taskID), Event.log s]⟩) := by
  cases h : (taskID.isNaN || taskID.isInf) with
  | true =>
    simp [getTaskResult, bind_apply, Prog.andThen, marshalOrFatal, unsupported, unsupportedEntries, h,
      Prog.fatal]
  | false =>
    simp only [getTaskResult, bind_apply, Prog.andThen, marshalOrFatal, unsupported, unsupportedEntries,
      h, Prog.fatal, postOrFatal, httpPost]
    rcases hr : remote w.calls with _ | ⟨d, _ | s⟩ <;>
      simp [hr, Prog.ret, Prog.fatal, Prog.panic, Prog.emit, readAllAndLog, pure_apply, pollBody,
        Option.orElse]

theorem createTaskRecaptcha_eq (c : Client) (websiteURL recaptchaKey : String) (remote : Remote)
    (w : World) :
    createTaskRecaptcha c websiteURL recaptchaKey remote w =
      match c.Proxy with
      | none => (Outcome.panic Fault.nilDereference, w)
      | some p =>
        match remote w.calls with
        | HttpResult.err =>
          (Outcome.fatal Fault.transport,
            ⟨w.calls + 1,
              w.trace ++ [Event.post createTaskURL (recaptchaBody c p websiteURL recaptchaKey)]⟩)
        | HttpResult.resp ⟨_, none⟩ =>
          (Outcome.panic Fault.read,
            ⟨w.calls + 1,
              w.trace ++ [Event.post createTaskURL (recaptchaBody c p websiteURL recaptchaKey)]⟩)
        | HttpResult.resp ⟨d, some s⟩ =>
          (match (decode d).lookup "taskId" with
            | none => Outcome.ok Float64.NaN
            | some (Value.float64 f) => Outcome.ok f
            | some _ => Outcome.panic Fault.typeAssertion,
            ⟨w.calls + 1,
              w.trace ++ [Event.post createTaskURL (recaptchaBody c p websiteURL recaptchaKey),
                Event.log s]⟩) := by
  rcases hp : c.Proxy with _ | p
  · simp [createTaskRecaptcha, bind_apply, Prog.andThen, derefProxy, hp, Prog.panic]
  · simp only [createTaskRecaptcha, bind_apply, Prog.andThen, derefProxy, hp, Prog.ret, marshalOrFatal,
      unsupported, unsupportedEntries, Option.orElse, postOrFatal, httpPost]
    rcases hr : remote w.calls with _ | ⟨d, _ | s⟩
    · simp [hr, Prog.fatal, Prog.ret, recaptchaBody]
    · simp [hr, Prog.panic, Prog.ret, readAllAndLog, recaptchaBody]
    · rcases hl : (decode d).lookup "taskId" with _ | v
      · simp [hr, hl, readAllAndLog, Prog.emit, Prog.ret, recaptchaBody, pure_apply]
      · cases v <;>
          simp [hr, hl, readAllAndLog, Prog.emit, recaptchaBody, assertFloat64, Prog.ret, Prog.panic]

theorem createTaskImage_eq (c : Client) (imgString : String) (remote : Remote) (w : World) :
    createTaskImage c imgString remote w =
      match remote w.calls with
      | HttpResult.err =>
        (Outcome.fatal Fault.transport,
          ⟨w.calls + 1, w.trace ++ [Event.post createTaskURL (imageBody c imgString)]⟩)
      | HttpResult.resp r =>
        (match (decode r.decoded).lookup "taskId" with
          | some (Value.float64 f) => Outcome.ok f
          | _ => Outcome.panic Fault.typeAssertion,
          ⟨w.calls + 1, w.trace ++ [Event.post createTaskURL (imageBody c imgString)]⟩) := by
  simp only [createTaskImage, bind_apply, Prog.andThen, Prog.ret, marshalOrFatal,
      unsupported, unsupportedEntries, Option.orElse, postOrFatal, httpPost]
  rcases hr : remote w.calls with _ | r
  · simp [hr, Prog.fatal, Prog.ret, imageBody]
  · rcases hl : (decode r.decoded).lookup "taskId" with _ | v
    · simp [hr, hl, imageBody, GoMap.index, assertFloat64, Prog.ret, Prog.panic]
    · cases v <;> simp [hr, hl, imageBody, GoMap.index, assertFloat64, Prog.ret, Prog.panic]

theorem requests_append (t u : List Event) : requests (t ++ u) = requests t ++ requests u := by
  induction t with
  | nil => rfl
  | cons e t ih => cases e <;> simp [requests, ih]

theorem extract_eq (m : GoMap) (field : String) (remote : Remote) (w : World) :
    extract m field remote w =
      (match m.index "solution" with
        | Value.map solution =>
          match GoMap.index solution field with
          | Value.string s => Outcome.ok s
          | _ => Outcome.panic Fault.typeAssertion
        | _ => Outcome.panic Fault.typeAssertion, w) := by
  simp only [extract, bind_apply, Prog.andThen]
  cases h : m.index "solution" <;> simp [assertMap, Prog.panic, Prog.ret]
  rename_i solution
  cases h2 : GoMap.index solution field <;> simp [assertString, Prog.panic, Prog.ret]

theorem received_eq {r : HttpResult} {m : GoMap} (h : received r = some m) :
    ∃ d s, r = HttpResult.resp ⟨d, some s⟩ ∧ decode d = m := by
  rcases r with _ | ⟨d, _ | s⟩
  · simp [received] at h
  · simp [received] at h
  · exact ⟨d, s, rfl, by simpa [received] using h⟩

theorem statusIsProcessing_iff (m : GoMap) :
    statusIsProcessing m = true ↔ m.index "status" = Value.string "processing" := by
  unfold statusIsProcessing
  cases h : m.index "status" <;> simp

theorem answersProcessing_eq {r : HttpResult} (h : answersProcessing r = true) :
    ∃ d s, r = HttpResult.resp ⟨d, some s⟩ ∧ statusIsProcessing (decode d) = true := by
  unfold answersProcessing at h
  rcases hr : received r with _ | m
  · simp [hr] at h
  · obtain ⟨d, s, rfl, rfl⟩ := received_eq hr
    refine ⟨d, s, rfl, ?_⟩
    simp only [hr] at h
    unfold statusIsProcessing GoMap.index
    rcases hl : (decode d).lookup "status" with _ | v
    · simp [hl] at h
    · cases v <;> simp_all

theorem bind_eq {α β : Type} (p : Prog α) (f : α → Prog β) : p >>= f = Prog.andThen p f := rfl

theorem andThen_ok {α β : Type} {p : Prog α} {remote : Remote} {w w1 : World} {a : α}
    (h : p remote w = (Outcome.ok a, w1)) (f : α → Prog β) :
    Prog.andThen p f remote w = f a remote w1 := by
  simp [Prog.andThen, h]

theorem andThen_emit {β : Type} (e : Event) (f : Unit → Prog β) (remote : Remote) (w : World) :
    Prog.andThen (Prog.emit e) f remote w = f () remote ⟨w.calls, w.trace ++ [e]⟩ := rfl

theorem pollLoop_stop {β : Type} (c : Client) (taskID : Float64) (fuel : Nat) (m : GoMap)
    (k : GoMap → Prog β) (remote : Remote) (w : World) (h : statusIsProcessing m = false) :
    Prog.andThen (pollLoop c taskID (fuel + 1) m) k remote w =
      k m remote ⟨w.calls, w.trace ++ [Event.log "Result is ready."]⟩ := by
  simp only [pollLoop, h, Bool.false_eq_true, if_false, bind_eq, andThen_assoc, andThen_emit]
  rfl

theorem pollLoop_retry {β : Type} (c : Client) (taskID : Float64) (fuel : Nat) (m : GoMap)
    (k : GoMap → Prog β) (remote : Remote) (w : World) (h : statusIsProcessing m = true) :
    Prog.andThen (pollLoop c taskID (fuel + 1) m) k remote w =
      Prog.andThen (getTaskResult c taskID) (fun first => Prog.andThen (pollLoop c taskID fuel first) k)
        remote
        ⟨w.calls, w.trace ++ [Event.log "Result is not ready, waiting a few seconds to check again...",
          Event.sleep sendInterval]⟩ := by
  simp only [pollLoop, h, if_true, bind_eq, andThen_assoc, andThen_emit, List.append_assoc,
    List.singleton_append]

theorem getTaskResult_ok (c : Client) (taskID : Float64) (remote : Remote) (w : World)
    (hfin : (taskID.isNaN || taskID.isInf) = false) {d : Decoded} {s : String}
    (hr : remote w.calls = HttpResult.resp ⟨d, some s⟩) :
    getTaskResult c taskID remote w =
      (Outcome.ok (decode d),
        ⟨w.calls + 1, w.trace ++ [Event.post getTaskResultURL (pollBody c taskID), Event.log s]⟩) := by
  rw [getTaskResult_eq]
  simp [hfin, hr]

theorem poll_run {β : Type} (c : Client) (taskID : Float64) (remote : Remote)
    (hfin : (taskID.isNaN || taskID.isInf) = false) (k : GoMap → Prog β) :
    ∀ (N fuel : Nat) (w : World) (m : GoMap), N + 1 ≤ fuel →
      (∀ i, i < N → answersProcessing (remote (w.calls + i)) = true) →
      received (remote (w.calls + N)) = some m → statusIsProcessing m = false →
      ∃ added,
        Prog.andThen (getTaskResult c taskID)
            (fun first => Prog.andThen (pollLoop c taskID fuel first) k) remote w =
          k m remote ⟨w.calls + N + 1, w.trace ++ added⟩ ∧
        pollsAndSleeps added = expectedPolling c taskID N := by
  intro N
  induction N with
  | zero =>
    intro fuel w m hfuel _ hlast hstop
    obtain ⟨fuel, rfl⟩ : ∃ f, fuel = f + 1 := ⟨fuel - 1, by omega⟩
    obtain ⟨d, s, hr, rfl⟩ := received_eq hlast
    simp only [Nat.add_zero] at hr
    refine ⟨[Event.post getTaskResultURL (pollBody c taskID), Event.log s,
      Event.log "Result is ready."], ?_, ?_⟩
    · rw [andThen_ok (getTaskResult_ok c taskID remote w hfin hr), pollLoop_stop _ _ _ _ _ _ _ hstop]
      simp
    · simp [pollsAndSleeps, expectedPolling, Event.isPoll, Event.isSleep]
  | succ N ih =>
    intro fuel w m hfuel hproc hlast hstop
    obtain ⟨fuel, rfl⟩ : ∃ f, fuel = f + 1 := ⟨fuel - 1, by omega⟩
    obtain ⟨d, s, hr, hgo⟩ := answersProcessing_eq (hproc 0 (by omega))
    simp only [Nat.add_zero] at hr
    obtain ⟨added, hrun, hpat⟩ := ih fuel
      ⟨w.calls + 1, w.trace ++ [Event.post getTaskResultURL (pollBody c taskID), Event.log s] ++
        [Event.log "Result is not ready, waiting a few seconds to check again...",
          Event.sleep sendInterval]⟩ m (by omega)
      (fun i hi => by
        have := hproc (i + 1) (by omega)
        simpa [Nat.add_assoc, Nat.add_comm 1 i] using this)
      (by simpa [Nat.add_assoc, Nat.add_comm 1 N] using hlast) hstop
    refine ⟨[Event.post getTaskResultURL (pollBody c taskID), Event.log s,
      Event.log "Result is not ready, waiting a few seconds to check again...",
      Event.sleep sendInterval] ++ added, ?_, ?_⟩
    · rw [andThen_ok (getTaskResult_ok c taskID remote w hfin hr), pollLoop_retry _ _ _ _ _ _ _ hgo,
        hrun]
      simp [Nat.add_assoc, Nat.add_comm 1 N]
    · simp [pollsAndSleeps, expectedPolling, Event.isPoll, Event.isSleep, sendInterval] at hpat ⊢
      exact hpat

theorem sendRecaptcha_run (c : Client) (websiteURL recaptchaKey : String) (remote : Remote)
    (taskID : Float64) (N fuel : Nat) (created final : GoMap)
    (hproxy : c.Proxy.isSome = true)
    (hcreate : received (remote 0) = some created)
    (hid : created.lookup "taskId" = some (Value.float64 taskID))
    (hfin : taskID.isFinite = true)
    (hproc : ∀ i, i < N → answersProcessing (remote (i + 1)) = true)
    (hlast : received (remote (N + 1)) = some final)
    (hstop : statusIsProcessing final = false)
    (hfuel : N + 1 ≤ fuel) :
    ∃ tr, run (SendRecaptcha fuel c websiteURL recaptchaKey) remote =
        extract final "gRecaptchaResponse" remote ⟨N + 2, tr⟩ ∧
      pollsAndSleeps tr = expectedPolling c taskID N := by
  obtain ⟨p, hp⟩ := Option.isSome_iff_exists.mp hproxy
  obtain ⟨d, s, hr, rfl⟩ := received_eq hcreate
  have hfin2 : (taskID.isNaN || taskID.isInf) = false := by
    simpa [Float64.isFinite] using hfin
  have hc : createTaskRecaptcha c websiteURL recaptchaKey remote World.init =
      (Outcome.ok taskID,
        ⟨1, [Event.post createTaskURL (recaptchaBody c p websiteURL recaptchaKey), Event.log s]⟩) := by
    rw [createTaskRecaptcha_eq]
    simp [hp, World.init, hr, hid]
  obtain ⟨added, hrun, hpat⟩ := poll_run c taskID remote hfin2
    (fun response => extract response "gRecaptchaResponse") N fuel
    ⟨1, [Event.post createTaskURL (recaptchaBody c p websiteURL recaptchaKey), Event.log s]⟩ final hfuel
    (fun i hi => by simpa [Nat.add_comm 1 i] using hproc i hi)
    (by simpa [Nat.add_comm 1 N] using hlast) hstop
  refine ⟨[Event.post createTaskURL (recaptchaBody c p websiteURL recaptchaKey), Event.log s] ++ added,
    ?_, ?_⟩
  · simp only [run, SendRecaptcha, bind_eq]
    rw [andThen_ok hc, hrun]
    simp [Nat.add_assoc, Nat.add_comm 1 N]
  · simpa [pollsAndSleeps, Event.isPoll, Event.isSleep, createTaskURL, getTaskResultURL] using hpat

theorem sendImage_run (c : Client) (imgString : String) (remote : Remote)
    (taskID : Float64) (N fuel : Nat) (created final : GoMap)
    (hcreate : received (remote 0) = some created)
    (hid : created.lookup "taskId" = some (Value.float64 taskID))
    (hfin : taskID.isFinite = true)
    (hproc : ∀ i, i < N → answersProcessing (remote (i + 1)) = true)
    (hlast : received (remote (N + 1)) = some final)
    (hstop : statusIsProcessing final = false)
    (hfuel : N + 1 ≤ fuel) :
    ∃ tr, run (SendImage fuel c imgString) remote = extract final "text" remote ⟨N + 2, tr⟩ ∧
      pollsAndSleeps tr = expectedPolling c taskID N := by
  obtain ⟨d, s, hr, rfl⟩ := received_eq hcreate
  have hfin2 : (taskID.isNaN || taskID.isInf) = false := by
    simpa [Float64.isFinite] using hfin
  have hc : createTaskImage c imgString remote World.init =
      (Outcome.ok taskID, ⟨1, [Event.post createTaskURL (imageBody c imgString)]⟩) := by
    rw [createTaskImage_eq]
    simp [World.init, hr, hid]
  obtain ⟨added, hrun, hpat⟩ := poll_run c taskID remote hfin2
    (fun response => extract response "text") N fuel
    ⟨1, [Event.post createTaskURL (imageBody c imgString)]⟩ final hfuel
    (fun i hi => by simpa [Nat.add_comm 1 i] using hproc i hi)
    (by simpa [Nat.add_comm 1 N] using hlast) hstop
  refine ⟨[Event.post createTaskURL (imageBody c imgString)] ++ added, ?_, ?_⟩
  · simp only [run, SendImage, bind_eq]
    rw [andThen_ok hc, hrun]
    simp [Nat.add_assoc, Nat.add_comm 1 N]
  · simpa [pollsAndSleeps, Event.isPoll, Event.isSleep, createTaskURL, getTaskResultURL] using hpat

theorem expectedPolling_polls (c : Client) (taskID : Float64) (N : Nat) :
    ((expectedPolling c taskID N).filter Event.isPoll).length = N + 1 := by
  induction N with
  | zero => simp [expectedPolling, Event.isPoll]
  | succ N ih => simp [expectedPolling, Event.isPoll, ih]

theorem expectedPolling_sleeps (c : Client) (taskID : Float64) (N : Nat) :
    ((expectedPolling c taskID N).filter Event.isSleep).length = N := by
  induction N with
  | zero => simp [expectedPolling, Event.isPoll, Event.isSleep]
  | succ N ih => simp [expectedPolling, Event.isPoll, Event.isSleep, ih]

theorem filter_isPoll (t : List Event) :
    t.filter Event.isPoll = (pollsAndSleeps t).filter Event.isPoll := by
  simp only [pollsAndSleeps, List.filter_filter]
  congr 1
  funext e
  cases h : e.isPoll <;> simp

theorem filter_isSleep (t : List Event) :
    t.filter Event.isSleep = (pollsAndSleeps t).filter Event.isSleep := by
  simp only [pollsAndSleeps, List.filter_filter]
  congr 1
  funext e
  cases h : e.isSleep <;> simp

theorem readyAnswer_stop {field : String} {m : GoMap} {answer : String}
    (h : readyAnswer field m = some answer) : statusIsProcessing m = false := by
  unfold readyAnswer at h
  unfold statusIsProcessing GoMap.index
  rcases hs : m.lookup "status" with _ | v
  · simp [hs] at h
  · cases v <;> simp [hs] at h ⊢
    rename_i s
    rcases hsol : m.lookup "solution" with _ | sol
    · simp [hsol] at h
    · cases sol <;> simp [hsol] at h
      rename_i kvs
      rcases hf : GoMap.lookup kvs field with _ | a
      · simp [hf] at h
      · cases a <;> simp [hf] at h
        rcases h with ⟨h1, _⟩
        rw [h1]
        decide

theorem readyAnswer_extract {field : String} {m : GoMap} {answer : String}
    (h : readyAnswer field m = some answer) (remote : Remote) (w : World) :
    extract m field remote w = (Outcome.ok answer, w) := by
  rw [extract_eq]
  unfold readyAnswer at h
  unfold GoMap.index
  rcases hs : m.lookup "status" with _ | v
  · simp [hs] at h
  · cases v <;> simp [hs] at h
    rcases hsol : m.lookup "solution" with _ | sol
    · simp [hsol] at h
    · cases sol <;> simp [hsol] at h
      rename_i kvs
      rcases hf : GoMap.lookup kvs field with _ | a
      · simp [hf] at h
      · cases a <;> simp [hf] at h
        simp [hf, h.2]

theorem onlyPolls_refl (c : Client) (taskID : Float64) (w : World) : onlyPolls c taskID w w :=
  ⟨0, by simp⟩

theorem onlyPolls_trans {c : Client} {taskID : Float64} {w1 w2 w3 : World}
    (h12 : onlyPolls c taskID w1 w2) (h23 : onlyPolls c taskID w2 w3) : onlyPolls c taskID w1 w3 := by
  obtain ⟨n, hn⟩ := h12
  obtain ⟨k, hk⟩ := h23
  refine ⟨n + k, ?_⟩
  rw [hk, hn, List.append_assoc, List.replicate_add]

theorem andThen_onlyPolls {α β : Type} (c : Client) (taskID : Float64) (p : Prog α) (f : α → Prog β)
    (remote : Remote) (w : World)
    (hp : onlyPolls c taskID w (p remote w).2)
    (hf : ∀ a w1, onlyPolls c taskID w1 (f a remote w1).2) :
    onlyPolls c taskID w (Prog.andThen p f remote w).2 := by
  unfold Prog.andThen
  rcases h : p remote w with ⟨o, w1⟩
  rw [h] at hp
  cases o with
  | ok a => exact onlyPolls_trans hp (hf a w1)
  | fatal e => exact hp
  | panic e => exact hp
  | outOfFuel => exact hp

theorem getTaskResult_onlyPolls (c : Client) (taskID : Float64) (remote : Remote) (w : World) :
    onlyPolls c taskID w (getTaskResult c taskID remote w).2 := by
  rw [getTaskResult_eq]
  cases (taskID.isNaN || taskID.isInf) with
  | true => exact ⟨0, by simp⟩
  | false =>
    rcases remote w.calls with _ | ⟨d, _ | s⟩ <;>
      exact ⟨1, by simp [requests_append, requests]⟩

theorem emit_onlyPolls (c : Client) (taskID : Float64) (e : Event) (he : requests [e] = [])
    (remote : Remote) (w : World) : onlyPolls c taskID w (Prog.emit e remote w).2 :=
  ⟨0, by simp [Prog.emit, requests_append, he]⟩

theorem pollLoop_onlyPolls (c : Client) (taskID : Float64) (remote : Remote) :
    ∀ (fuel : Nat) (m : GoMap) (w : World),
      onlyPolls c taskID w (pollLoop c taskID fuel m remote w).2 := by
  intro fuel
  induction fuel with
  | zero => intro m w; exact onlyPolls_refl c taskID w
  | succ fuel ih =>
    intro m w
    unfold pollLoop
    cases statusIsProcessing m with
    | true =>
      simp only [if_true, bind_eq]
      refine andThen_onlyPolls c taskID _ _ remote w (emit_onlyPolls c taskID _ (by rfl) remote w) ?_
      intro _ w1
      refine andThen_onlyPolls c taskID _ _ remote w1 (emit_onlyPolls c taskID _ (by rfl) remote w1) ?_
      intro _ w2
      exact andThen_onlyPolls c taskID _ _ remote w2 (getTaskResult_onlyPolls c taskID remote w2)
        (fun a w3 => ih a w3)
    | false =>
      simp only [Bool.false_eq_true, if_false, bind_eq]
      refine andThen_onlyPolls c taskID _ _ remote w (emit_onlyPolls c taskID _ (by rfl) remote w) ?_
      intro _ w1
      exact onlyPolls_refl c taskID w1

theorem polling_onlyPolls (c : Client) (taskID : Float64) (fuel : Nat) (field : String)
    (remote : Remote) (w : World) :
    onlyPolls c taskID w
      (Prog.andThen (getTaskResult c taskID) (fun first =>
        Prog.andThen (pollLoop c taskID fuel first) (fun response => extract response field))
        remote w).2 := by
  refine andThen_onlyPolls c taskID _ _ remote w (getTaskResult_onlyPolls c taskID remote w) ?_
  intro first w1
  refine andThen_onlyPolls c taskID _ _ remote w1 (pollLoop_onlyPolls c taskID remote fuel first w1) ?_
  intro response w2
  rw [extract_eq]
  exact onlyPolls_refl c taskID w2

theorem createTaskRecaptcha_requests (c : Client) (websiteURL recaptchaKey : String)
    (remote : Remote) (url : String) (body : Value)
    (h : (url, body) ∈ requests (createTaskRecaptcha c websiteURL recaptchaKey remote World.init).2.trace) :
    url = createTaskURL := by
  rw [createTaskRecaptcha_eq] at h
  rcases hp : c.Proxy with _ | p
  · simp [hp, World.init, requests] at h
  · rcases hr : remote 0 with _ | ⟨d, _ | s⟩ <;>
      simp [hp, hr, World.init, requests] at h <;> exact h.1

theorem createTaskImage_requests (c : Client) (imgString : String)
    (remote : Remote) (url : String) (body : Value)
    (h : (url, body) ∈ requests (createTaskImage c imgString remote World.init).2.trace) :
    url = createTaskURL := by
  rw [createTaskImage_eq] at h
  rcases hr : remote 0 with _ | r <;>
    simp [hr, World.init, requests] at h <;> exact h.1

theorem polls_after_create (c : Client) (create : Prog Float64) (fuel : Nat)
    (field : String) (remote : Remote) (url : String) (body : Value)
    (hcreate : ∀ u b, (u, b) ∈ requests (create remote World.init).2.trace → u = createTaskURL)
    (hmem : (url, body) ∈ requests (Prog.andThen create (fun taskID =>
      Prog.andThen (getTaskResult c taskID) (fun first =>
        Prog.andThen (pollLoop c taskID fuel first) (fun response => extract response field)))
      remote World.init).2.trace)
    (hurl : url = getTaskResultURL) :
    ∃ taskID, (create remote World.init).1 = Outcome.ok taskID ∧ body = pollBody c taskID := by
  have hne : ¬ (getTaskResultURL = createTaskURL) := by decide
  unfold Prog.andThen at hmem
  rcases h : create remote World.init with ⟨o, w1⟩
  rw [h] at hcreate
  cases o with
  | ok taskID =>
    simp only [h] at hmem
    obtain ⟨n, hn⟩ := polling_onlyPolls c taskID fuel field remote w1
    unfold Prog.andThen at hn
    rw [hn, List.mem_append] at hmem
    rcases hmem with hmem | hmem
    · exact absurd (hurl ▸ hcreate url body hmem) hne
    · exact ⟨taskID, rfl, (Prod.mk.inj (List.eq_of_mem_replicate hmem)).2⟩
  | fatal e =>
    simp only [h] at hmem
    exact absurd (hurl ▸ hcreate url body hmem) hne
  | panic e =>
    simp only [h] at hmem
    exact absurd (hurl ▸ hcreate url body hmem) hne
  | outOfFuel =>
    simp only [h] at hmem
    exact absurd (hurl ▸ hcreate url body hmem) hne

theorem extract_solutionField (m : GoMap) (field : String) (remote : Remote) (w : World) :
    extract m field remote w =
      (match solutionField field m with
        | some answer => Outcome.ok answer
        | none => Outcome.panic Fault.typeAssertion, w) := by
  rw [extract_eq]
  unfold solutionField GoMap.index
  rcases hsol : m.lookup "solution" with _ | sol
  · simp
  · cases sol <;> simp
    rename_i kvs
    rcases hf : GoMap.lookup kvs field with _ | a
    · simp
    · cases a <;> simp

theorem polledTimes_of_pattern (c : Client) (taskID : Float64) (N : Nat) (tr : List Event)
    (hpat : pollsAndSleeps tr = expectedPolling c taskID N) :
    polledTimes c taskID N ⟨N + 2, tr⟩ := by
  refine ⟨rfl, ?_, ?_, hpat⟩
  · show (tr.filter Event.isPoll).length = N + 1
    rw [filter_isPoll, hpat, expectedPolling_polls]
  · show (tr.filter Event.isSleep).length = N
    rw [filter_isSleep, hpat, expectedPolling_sleeps]

theorem not_processing {m : GoMap} (h : m.index "status" ≠ Value.string "processing") :
    statusIsProcessing m = false := by
  cases hb : statusIsProcessing m with
  | false => rfl
  | true => exact absurd ((statusIsProcessing_iff m).mp hb) h

theorem andThen_agree {α β : Type} {p : Prog α} {f : α → Prog β} (r1 r2 : Remote)
    (hp : ∀ w, p r1 w = p r2 w) (hf : ∀ a w, f a r1 w = f a r2 w) (w : World) :
    Prog.andThen p f r1 w = Prog.andThen p f r2 w := by
  unfold Prog.andThen
  rw [hp w]
  rcases p r2 w with ⟨o, w1⟩
  cases o <;> simp [hf]

theorem getTaskResult_asEmptyObject (c : Client) (taskID : Float64) (remote : Remote) (w : World) :
    getTaskResult c taskID remote w = getTaskResult c taskID (asEmptyObject remote) w := by
  rw [getTaskResult_eq, getTaskResult_eq]
  rcases hr : remote w.calls with _ | ⟨d, rest⟩
  · simp [asEmptyObject, hr]
  · cases d <;> cases rest <;> simp [asEmptyObject, hr, decode]

theorem createTaskRecaptcha_asEmptyObject (c : Client) (websiteURL recaptchaKey : String)
    (remote : Remote) (w : World) :
    createTaskRecaptcha c websiteURL recaptchaKey remote w =
      createTaskRecaptcha c websiteURL recaptchaKey (asEmptyObject remote) w := by
  rw [createTaskRecaptcha_eq, createTaskRecaptcha_eq]
  rcases c.Proxy with _ | p
  · rfl
  · rcases hr : remote w.calls with _ | ⟨d, rest⟩
    · simp [asEmptyObject, hr]
    · cases d <;> cases rest <;> simp [asEmptyObject, hr, decode]

theorem createTaskImage_asEmptyObject (c : Client) (imgString : String) (remote : Remote)
    (w : World) :
    createTaskImage c imgString remote w = createTaskImage c imgString (asEmptyObject remote) w := by
  rw [createTaskImage_eq, createTaskImage_eq]
  rcases hr : remote w.calls with _ | ⟨d, rest⟩
  · simp [asEmptyObject, hr]
  · cases d <;> simp [asEmptyObject, hr, decode]

theorem pollLoop_asEmptyObject (c : Client) (taskID : Float64) (remote : Remote) :
    ∀ (fuel : Nat) (m : GoMap) (w : World),
      pollLoop c taskID fuel m remote w = pollLoop c taskID fuel m (asEmptyObject remote) w := by
  intro fuel
  induction fuel with
  | zero => intro m w; rfl
  | succ fuel ih =>
    intro m w
    unfold pollLoop
    cases statusIsProcessing m with
    | true =>
      simp only [if_true, bind_eq]
      refine andThen_agree remote (asEmptyObject remote) (fun _ => by rfl) (fun _ w1 => ?_) w
      refine andThen_agree remote (asEmptyObject remote) (fun _ => by rfl) (fun _ w2 => ?_) w1
      exact andThen_agree remote (asEmptyObject remote) (getTaskResult_asEmptyObject c taskID remote) (fun a w3 => ih a w3) w2
    | false => rfl

theorem polling_asEmptyObject (c : Client) (fuel : Nat) (field : String) (remote : Remote)
    (taskID : Float64) (w : World) :
    Prog.andThen (getTaskResult c taskID) (fun first =>
        Prog.andThen (pollLoop c taskID fuel first) (fun response => extract response field))
        remote w =
      Prog.andThen (getTaskResult c taskID) (fun first =>
        Prog.andThen (pollLoop c taskID fuel first) (fun response => extract response field))
        (asEmptyObject remote) w := by
  refine andThen_agree remote (asEmptyObject remote) (getTaskResult_asEmptyObject c taskID remote) (fun first w1 => ?_) w
  refine andThen_agree remote (asEmptyObject remote) (pollLoop_asEmptyObject c taskID remote fuel first) (fun response w2 => ?_) w1
  rw [extract_eq, extract_eq]

/-! ## The claims -/

/-- C1: when the create-task response carries a numeric task identifier, the
first `N` poll responses have status "processing" and the next one is "ready"
with a solution object holding the string answer, `SendRecaptcha` (field
gRecaptchaResponse, proxy set) and `SendImage` (field text) return that answer
after exactly `N + 1` polls and `N` sleeps of ten seconds, one between each
pair of consecutive polls; any fuel of at least `N + 1` is enough. -/
theorem send_polls_until_ready (c : Client) (websiteURL recaptchaKey imgString : String)
    (remote : Remote) (taskID : Float64) (N fuel : Nat) (created final : GoMap) (answer : String)
    (hcreate : received (remote 0) = some created)
    (hid : created.lookup "taskId" = some (Value.float64 taskID))
    (hfin : taskID.isFinite = true)
    (hproc : ∀ i, i < N → answersProcessing (remote (i + 1)) = true)
    (hlast : received (remote (N + 1)) = some final)
    (hfuel : N + 1 ≤ fuel) :
    (c.Proxy.isSome = true → readyAnswer "gRecaptchaResponse" final = some answer →
      (run (SendRecaptcha fuel c websiteURL recaptchaKey) remote).1 = Outcome.ok answer ∧
      polledTimes c taskID N (run (SendRecaptcha fuel c websiteURL recaptchaKey) remote).2) ∧
    (readyAnswer "text" final = some answer →
      (run (SendImage fuel c imgString) remote).1 = Outcome.ok answer ∧
      polledTimes c taskID N (run (SendImage fuel c imgString) remote).2) := by
  constructor
  · intro hproxy hready
    obtain ⟨tr, hrun, hpat⟩ := sendRecaptcha_run c websiteURL recaptchaKey remote taskID N fuel
      created final hproxy hcreate hid hfin hproc hlast (readyAnswer_stop hready) hfuel
    rw [hrun, readyAnswer_extract hready]
    refine ⟨rfl, rfl, ?_, ?_, hpat⟩
    · show (tr.filter Event.isPoll).length = N + 1
      rw [filter_isPoll, hpat, expectedPolling_polls]
    · show (tr.filter Event.isSleep).length = N
      rw [filter_isSleep, hpat, expectedPolling_sleeps]
  · intro hready
    obtain ⟨tr, hrun, hpat⟩ := sendImage_run c imgString remote taskID N fuel
      created final hcreate hid hfin hproc hlast (readyAnswer_stop hready) hfuel
    rw [hrun, readyAnswer_extract hready]
    refine ⟨rfl, rfl, ?_, ?_, hpat⟩
    · show (tr.filter Event.isPoll).length = N + 1
      rw [filter_isPoll, hpat, expectedPolling_polls]
    · show (tr.filter Event.isSleep).length = N
      rw [filter_isSleep, hpat, expectedPolling_sleeps]

/-- C1 at the specification's example (ready at once: the token, one poll, no
sleep), at a reCAPTCHA ready after two "processing" responses, and at an image
ready after one. -/
theorem send_polls_until_ready_witness :
    ((run (SendRecaptcha 1 exampleClient "https://example.com" "6Lc...") readyAtOnce).1 =
        Outcome.ok "03AG..." ∧
      polledTimes exampleClient fortyTwo 0
        (run (SendRecaptcha 1 exampleClient "https://example.com" "6Lc...") readyAtOnce).2) ∧
    ((run (SendRecaptcha 3 exampleClient "https://example.com" "6Lc...") readyAfterTwo).1 =
        Outcome.ok "03AG..." ∧
      polledTimes exampleClient fortyTwo 2
        (run (SendRecaptcha 3 exampleClient "https://example.com" "6Lc...") readyAfterTwo).2) ∧
    ((run (SendImage 2 exampleClient "aGVsbG8=") imageAfterOne).1 = Outcome.ok "xk7q" ∧
      polledTimes exampleClient fortyTwo 1 (run (SendImage 2 exampleClient "aGVsbG8=") imageAfterOne).2) :=
  ⟨(send_polls_until_ready exampleClient "https://example.com" "6Lc..." "" readyAtOnce fortyTwo 0 1
      [("taskId", Value.float64 fortyTwo)]
      [("status", Value.string "ready"),
        ("solution", Value.map [("gRecaptchaResponse", Value.string "03AG...")])]
      "03AG..." rfl rfl rfl (by decide) rfl (by decide)).1 rfl rfl,
    (send_polls_until_ready exampleClient "https://example.com" "6Lc..." "" readyAfterTwo fortyTwo 2 3
      [("taskId", Value.float64 fortyTwo)]
      [("status", Value.string "ready"),
        ("solution", Value.map [("gRecaptchaResponse", Value.string "03AG...")])]
      "03AG..." rfl rfl rfl (by decide) rfl (by decide)).1 rfl rfl,
    (send_polls_until_ready exampleClient "" "" "aGVsbG8=" imageAfterOne fortyTwo 1 2
      [("taskId", Value.float64 fortyTwo)]
      [("status", Value.string "ready"), ("solution", Value.map [("text", Value.string "xk7q")])]
      "xk7q" rfl rfl rfl (by decide) rfl (by decide)).2 rfl⟩

/-- C2: with a proxy set and a create-task response received and read to the
end, `createTaskRecaptcha` returns normally: the not-a-number sentinel when the
decoded response has no "taskId" key, and the number itself when the key holds
a number. -/
theorem createTaskRecaptcha_taskId (c : Client) (websiteURL recaptchaKey : String)
    (remote : Remote) (w : World) (created : GoMap)
    (hproxy : c.Proxy.isSome = true)
    (hcreate : received (remote w.calls) = some created) :
    (created.lookup "taskId" = none →
      (createTaskRecaptcha c websiteURL recaptchaKey remote w).1 = Outcome.ok Float64.NaN ∧
      Float64.NaN.isNaN = true) ∧
    (∀ f, created.lookup "taskId" = some (Value.float64 f) →
      (createTaskRecaptcha c websiteURL recaptchaKey remote w).1 = Outcome.ok f) := by
  obtain ⟨p, hp⟩ := Option.isSome_iff_exists.mp hproxy
  obtain ⟨d, s, hr, rfl⟩ := received_eq hcreate
  constructor
  · intro hnone
    refine ⟨?_, by decide⟩
    rw [createTaskRecaptcha_eq]
    simp [hp, hr, hnone]
  · intro f hsome
    rw [createTaskRecaptcha_eq]
    simp [hp, hr, hsome]

/-- C2 at the response `{}` (the sentinel) and at `{"taskId": 42}` (42). -/
theorem createTaskRecaptcha_taskId_witness :
    ((run (createTaskRecaptcha exampleClient "https://example.com" "6Lc...") withoutTaskId).1 =
        Outcome.ok Float64.NaN ∧ Float64.NaN.isNaN = true) ∧
    (run (createTaskRecaptcha exampleClient "https://example.com" "6Lc...") readyAtOnce).1 =
        Outcome.ok fortyTwo :=
  ⟨(createTaskRecaptcha_taskId exampleClient "https://example.com" "6Lc..." withoutTaskId World.init
      [] rfl rfl).1 rfl,
    (createTaskRecaptcha_taskId exampleClient "https://example.com" "6Lc..." readyAtOnce World.init
      [("taskId", Value.float64 fortyTwo)] rfl rfl).2 fortyTwo rfl⟩

/-- C3: on the create-task response `{}`, which has no "taskId" key,
`createTaskImage` panics in its type assertion after sending its one request,
where `createTaskRecaptcha` returns the not-a-number sentinel. -/
theorem createTaskImage_missing_taskId_panics :
    run (createTaskImage exampleClient "aGVsbG8=") withoutTaskId =
        (Outcome.panic Fault.typeAssertion,
          ⟨1, [Event.post createTaskURL (imageBody exampleClient "aGVsbG8=")]⟩) ∧
    (run (createTaskRecaptcha exampleClient "https://example.com" "6Lc...") withoutTaskId).1 =
        Outcome.ok Float64.NaN := by
  constructor
  · rfl
  · rfl

/-- C6: with a proxy set, `createTaskRecaptcha` makes exactly one request, to
the createTask endpoint, whose body has the client's key and a task of type
"NoCaptchaTask" with the two arguments and the six proxy fields, and no other
key. -/
theorem createTaskRecaptcha_payload (c : Client) (p : Proxy) (websiteURL recaptchaKey : String)
    (remote : Remote) (w : World) (hproxy : c.Proxy = some p) :
    requests (createTaskRecaptcha c websiteURL recaptchaKey remote w).2.trace =
      requests w.trace ++
        [("https://api.anti-captcha.com/createTask",
          Value.map [
            ("clientKey", Value.string c.APIKey),
            ("task", Value.map [
              ("type", Value.string "NoCaptchaTask"),
              ("websiteURL", Value.string websiteURL),
              ("websiteKey", Value.string recaptchaKey),
              ("proxyType", Value.string p.Type'),
              ("proxyAddress", Value.string p.Address),
              ("proxyPort", Value.int p.Port),
              ("proxyLogin", Value.string p.Login),
              ("proxyPassword", Value.string p.Password),
              ("proxyAgent", Value.string p.UserAgent)])])] := by
  rw [createTaskRecaptcha_eq]
  simp only [hproxy]
  rcases remote w.calls with _ | ⟨d, _ | s⟩ <;>
    simp [requests_append, requests, recaptchaBody, createTaskURL]

/-- C6 at the example client, from the start of a run. -/
theorem createTaskRecaptcha_payload_witness :
    requests (run (createTaskRecaptcha exampleClient "https://example.com" "6Lc...") readyAtOnce).2.trace =
      [("https://api.anti-captcha.com/createTask",
        Value.map [
          ("clientKey", Value.string "key"),
          ("task", Value.map [
            ("type", Value.string "NoCaptchaTask"),
            ("websiteURL", Value.string "https://example.com"),
            ("websiteKey", Value.string "6Lc..."),
            ("proxyType", Value.string "http"),
            ("proxyAddress", Value.string "10.0.0.1"),
            ("proxyPort", Value.int 8080),
            ("proxyLogin", Value.string "user"),
            ("proxyPassword", Value.string "secret"),
            ("proxyAgent", Value.string "Mozilla/5.0")])])] :=
  createTaskRecaptcha_payload exampleClient exampleProxy "https://example.com" "6Lc..." readyAtOnce
    World.init rfl

/-- C7: with no proxy configured, `createTaskRecaptcha` panics on the nil
pointer while it builds the payload: nothing is sent, whatever the remote
service would answer. -/
theorem createTaskRecaptcha_nil_proxy_panics (apiKey websiteURL recaptchaKey : String)
    (remote : Remote) (w : World) :
    createTaskRecaptcha { APIKey := apiKey, Proxy := none } websiteURL recaptchaKey remote w =
      (Outcome.panic Fault.nilDereference, w) := by
  rw [createTaskRecaptcha_eq]

/-- C8: every request to the getTaskResult endpoint made during one
`SendRecaptcha` or `SendImage` call has a body with exactly the two keys
clientKey (the client's key) and taskId, and its taskId is the identifier the
call's create-task step returned. -/
theorem poll_bodies_carry_created_taskId (fuel : Nat) (c : Client)
    (websiteURL recaptchaKey imgString : String) (remote : Remote) (url : String) (body : Value)
    (hurl : url = "https://api.anti-captcha.com/getTaskResult") :
    ((url, body) ∈ requests (run (SendRecaptcha fuel c websiteURL recaptchaKey) remote).2.trace →
      ∃ taskID, (run (createTaskRecaptcha c websiteURL recaptchaKey) remote).1 = Outcome.ok taskID ∧
        body = Value.map [("clientKey", Value.string c.APIKey), ("taskId", Value.float64 taskID)]) ∧
    ((url, body) ∈ requests (run (SendImage fuel c imgString) remote).2.trace →
      ∃ taskID, (run (createTaskImage c imgString) remote).1 = Outcome.ok taskID ∧
        body = Value.map [("clientKey", Value.string c.APIKey), ("taskId", Value.float64 taskID)]) := by
  constructor
  · intro hmem
    exact polls_after_create c (createTaskRecaptcha c websiteURL recaptchaKey) fuel
      "gRecaptchaResponse" remote url body
      (fun u b hb => createTaskRecaptcha_requests c websiteURL recaptchaKey remote u b hb) hmem hurl
  · intro hmem
    exact polls_after_create c (createTaskImage c imgString) fuel "text" remote url body
      (fun u b hb => createTaskImage_requests c imgString remote u b hb) hmem hurl

/-- C8 at the reCAPTCHA that is ready after two "processing" responses: the
poll body with taskId 42 is among the requests, and 42 is what the create-task
step returned. -/
theorem poll_bodies_carry_created_taskId_witness :
    ("https://api.anti-captcha.com/getTaskResult",
        Value.map [("clientKey", Value.string "key"), ("taskId", Value.float64 fortyTwo)]) ∈
      requests (run (SendRecaptcha 3 exampleClient "https://example.com" "6Lc...") readyAfterTwo).2.trace ∧
    ∃ taskID,
      (run (createTaskRecaptcha exampleClient "https://example.com" "6Lc...") readyAfterTwo).1 =
        Outcome.ok taskID ∧
      Value.map [("clientKey", Value.string "key"), ("taskId", Value.float64 fortyTwo)] =
        Value.map [("clientKey", Value.string exampleClient.APIKey), ("taskId", Value.float64 taskID)] :=
  ⟨List.mem_cons_of_mem _ (List.mem_cons_self _ _),
    (poll_bodies_carry_created_taskId 3 exampleClient "https://example.com" "6Lc..." "" readyAfterTwo
      "https://api.anti-captcha.com/getTaskResult"
      (Value.map [("clientKey", Value.string "key"), ("taskId", Value.float64 fortyTwo)]) rfl).1
      (List.mem_cons_of_mem _ (List.mem_cons_self _ _))⟩

/-- C9: the loop goes on exactly while the status is the string "processing".
After a create-task response with a numeric identifier and `N` "processing"
responses, a response whose status is anything else ends the polling: the run
has made `N + 1` polls and `N` sleeps, the last event of the two kinds is the
poll that fetched this response, and the result is what the return expression
extracts from this response.  In the loop itself a "processing" response is
followed by a sleep of `sendInterval` and a new poll, any other response by
neither. -/
theorem polling_continues_only_while_processing (c : Client)
    (websiteURL recaptchaKey imgString : String)
    (remote : Remote) (taskID : Float64) (N fuel : Nat) (created final : GoMap)
    (hcreate : received (remote 0) = some created)
    (hid : created.lookup "taskId" = some (Value.float64 taskID))
    (hfin : taskID.isFinite = true)
    (hproc : ∀ i, i < N → answersProcessing (remote (i + 1)) = true)
    (hlast : received (remote (N + 1)) = some final)
    (hother : final.index "status" ≠ Value.string "processing")
    (hfuel : N + 1 ≤ fuel) :
    (c.Proxy.isSome = true →
      run (SendRecaptcha fuel c websiteURL recaptchaKey) remote =
        extract final "gRecaptchaResponse" remote
          (run (SendRecaptcha fuel c websiteURL recaptchaKey) remote).2 ∧
      polledTimes c taskID N (run (SendRecaptcha fuel c websiteURL recaptchaKey) remote).2) ∧
    (run (SendImage fuel c imgString) remote =
        extract final "text" remote (run (SendImage fuel c imgString) remote).2 ∧
      polledTimes c taskID N (run (SendImage fuel c imgString) remote).2) ∧
    (∀ (m : GoMap) (w : World),
      (m.index "status" = Value.string "processing" →
        pollLoop c taskID (fuel + 1) m remote w =
          (getTaskResult c taskID >>= pollLoop c taskID fuel) remote
            ⟨w.calls, w.trace ++
              [Event.log "Result is not ready, waiting a few seconds to check again...",
                Event.sleep sendInterval]⟩) ∧
      (m.index "status" ≠ Value.string "processing" →
        pollLoop c taskID (fuel + 1) m remote w =
          (Outcome.ok m, ⟨w.calls, w.trace ++ [Event.log "Result is ready."]⟩))) := by
  refine ⟨?_, ?_, ?_⟩
  · intro hproxy
    obtain ⟨tr, hrun, hpat⟩ := sendRecaptcha_run c websiteURL recaptchaKey remote taskID N fuel
      created final hproxy hcreate hid hfin hproc hlast (not_processing hother) hfuel
    rw [hrun]
    simp only [extract_eq]
    exact ⟨trivial, polledTimes_of_pattern c taskID N tr hpat⟩
  · obtain ⟨tr, hrun, hpat⟩ := sendImage_run c imgString remote taskID N fuel
      created final hcreate hid hfin hproc hlast (not_processing hother) hfuel
    rw [hrun]
    simp only [extract_eq]
    exact ⟨trivial, polledTimes_of_pattern c taskID N tr hpat⟩
  · intro m w
    constructor
    · intro hm
      have hgo := (statusIsProcessing_iff m).mpr hm
      simp [pollLoop, hgo, bind_apply, Prog.andThen, Prog.emit]
    · intro hm
      simp [pollLoop, not_processing hm, bind_apply, Prog.andThen, Prog.emit, pure_apply]

/-- C9 at a server that answers "processing" once and then
`{"errorId": 12, "status": "failed"}`: two polls, one sleep, and the result is
what the return expression makes of the failed response. -/
theorem polling_continues_only_while_processing_witness :
    run (SendRecaptcha 2 exampleClient "https://example.com" "6Lc...") failsAfterOne =
        extract [("errorId", Value.float64 ⟨0x4028000000000000⟩), ("status", Value.string "failed")]
          "gRecaptchaResponse" failsAfterOne
          (run (SendRecaptcha 2 exampleClient "https://example.com" "6Lc...") failsAfterOne).2 ∧
      polledTimes exampleClient fortyTwo 1
        (run (SendRecaptcha 2 exampleClient "https://example.com" "6Lc...") failsAfterOne).2 :=
  (polling_continues_only_while_processing exampleClient "https://example.com" "6Lc..." ""
    failsAfterOne fortyTwo 1 2 [("taskId", Value.float64 fortyTwo)]
    [("errorId", Value.float64 ⟨0x4028000000000000⟩), ("status", Value.string "failed")]
    rfl rfl rfl (by decide) rfl (fun h => absurd (Value.string.inj h) (by decide)) (by decide)).1 rfl

/-- C10: for a final (non-processing) poll response, `SendRecaptcha` returns a
string exactly when the response has a "solution" key holding an object whose
"gRecaptchaResponse" is a string, and then returns that string; `SendImage`
likewise with "text".  In every other case the call ends in a panic. -/
theorem extraction_aborts_on_shape_mismatch (c : Client)
    (websiteURL recaptchaKey imgString : String)
    (remote : Remote) (taskID : Float64) (N fuel : Nat) (created final : GoMap)
    (hcreate : received (remote 0) = some created)
    (hid : created.lookup "taskId" = some (Value.float64 taskID))
    (hfin : taskID.isFinite = true)
    (hproc : ∀ i, i < N → answersProcessing (remote (i + 1)) = true)
    (hlast : received (remote (N + 1)) = some final)
    (hother : final.index "status" ≠ Value.string "processing")
    (hfuel : N + 1 ≤ fuel) :
    (c.Proxy.isSome = true →
      (∀ answer, (run (SendRecaptcha fuel c websiteURL recaptchaKey) remote).1 = Outcome.ok answer ↔
        solutionField "gRecaptchaResponse" final = some answer) ∧
      (solutionField "gRecaptchaResponse" final = none →
        (run (SendRecaptcha fuel c websiteURL recaptchaKey) remote).1 =
          Outcome.panic Fault.typeAssertion)) ∧
    ((∀ answer, (run (SendImage fuel c imgString) remote).1 = Outcome.ok answer ↔
        solutionField "text" final = some answer) ∧
      (solutionField "text" final = none →
        (run (SendImage fuel c imgString) remote).1 = Outcome.panic Fault.typeAssertion)) := by
  constructor
  · intro hproxy
    obtain ⟨tr, hrun, _⟩ := sendRecaptcha_run c websiteURL recaptchaKey remote taskID N fuel
      created final hproxy hcreate hid hfin hproc hlast (not_processing hother) hfuel
    rw [hrun, extract_solutionField]
    cases solutionField "gRecaptchaResponse" final <;> simp
  · obtain ⟨tr, hrun, _⟩ := sendImage_run c imgString remote taskID N fuel
      created final hcreate hid hfin hproc hlast (not_processing hother) hfuel
    rw [hrun, extract_solutionField]
    cases solutionField "text" final <;> simp

/-- C10 at a failed response without a solution (a panic) and at the image
text that is ready after one "processing" response (the text). -/
theorem extraction_aborts_on_shape_mismatch_witness :
    (run (SendRecaptcha 2 exampleClient "https://example.com" "6Lc...") failsAfterOne).1 =
        Outcome.panic Fault.typeAssertion ∧
    (run (SendImage 2 exampleClient "aGVsbG8=") imageAfterOne).1 = Outcome.ok "xk7q" :=
  ⟨((extraction_aborts_on_shape_mismatch exampleClient "https://example.com" "6Lc..." ""
      failsAfterOne fortyTwo 1 2 [("taskId", Value.float64 fortyTwo)]
      [("errorId", Value.float64 ⟨0x4028000000000000⟩), ("status", Value.string "failed")]
      rfl rfl rfl (by decide) rfl (fun h => absurd (Value.string.inj h) (by decide))
      (by decide)).1 rfl).2 rfl,
    ((extraction_aborts_on_shape_mismatch exampleClient "" "" "aGVsbG8="
      imageAfterOne fortyTwo 1 2 [("taskId", Value.float64 fortyTwo)]
      [("status", Value.string "ready"), ("solution", Value.map [("text", Value.string "xk7q")])]
      rfl rfl rfl (by decide) rfl (fun h => absurd (Value.string.inj h) (by decide))
      (by decide)).2.1 "xk7q").mpr rfl⟩

/-- C4, refuted at the create-task response `{}`: `createTaskRecaptcha` returns
the not-a-number sentinel, `SendRecaptcha` hands it to `getTaskResult`, and the
call ends in `logger.Fatal` on the value NaN, which exits the process instead
of giving the caller an error. -/
theorem missing_taskId_sentinel_reaches_getTaskResult :
    (run (createTaskRecaptcha exampleClient "https://example.com" "6Lc...") withoutTaskId).1 =
        Outcome.ok Float64.NaN ∧
    getTaskResult exampleClient Float64.NaN withoutTaskId
        (run (createTaskRecaptcha exampleClient "https://example.com" "6Lc...") withoutTaskId).2 =
      (Outcome.fatal (Fault.unsupportedValue Float64.NaN),
        (run (createTaskRecaptcha exampleClient "https://example.com" "6Lc...") withoutTaskId).2) ∧
    run (SendRecaptcha 1 exampleClient "https://example.com" "6Lc...") withoutTaskId =
      (Outcome.fatal (Fault.unsupportedValue Float64.NaN),
        ⟨1, [Event.post createTaskURL
              (recaptchaBody exampleClient exampleProxy "https://example.com" "6Lc..."),
            Event.log ""]⟩) := by
  refine ⟨?_, ?_, ?_⟩
  · rfl
  · rfl
  · rfl

/-- C4, amended: when the create-task response, received and read to the end,
lacks a task identifier, no error value reaches the caller.  `SendRecaptcha`
(proxy set) passes the not-a-number sentinel that `createTaskRecaptcha`
returns to `getTaskResult`, whose payload cannot be marshalled, so the process
ends in `logger.Fatal` with nothing sent after the create-task request.
`SendImage` returns no answer and sends no poll either. -/
theorem missing_taskId_ends_before_any_poll (fuel : Nat) (c : Client)
    (websiteURL recaptchaKey imgString : String) (remote : Remote) (created : GoMap)
    (hcreate : received (remote 0) = some created)
    (hid : created.lookup "taskId" = none) :
    (c.Proxy.isSome = true →
      (run (createTaskRecaptcha c websiteURL recaptchaKey) remote).1 = Outcome.ok Float64.NaN ∧
      (∀ w, getTaskResult c Float64.NaN remote w =
        (Outcome.fatal (Fault.unsupportedValue Float64.NaN), w)) ∧
      run (SendRecaptcha fuel c websiteURL recaptchaKey) remote =
        (Outcome.fatal (Fault.unsupportedValue Float64.NaN),
          (run (createTaskRecaptcha c websiteURL recaptchaKey) remote).2)) ∧
    ((∀ answer, (run (SendImage fuel c imgString) remote).1 ≠ Outcome.ok answer) ∧
      (run (SendImage fuel c imgString) remote).2.trace.filter Event.isPoll = []) := by
  obtain ⟨d, s, hr, rfl⟩ := received_eq hcreate
  have hnan : ∀ w, getTaskResult c Float64.NaN remote w =
      (Outcome.fatal (Fault.unsupportedValue Float64.NaN), w) := by
    intro w
    rw [getTaskResult_eq]
    rfl
  constructor
  · intro hproxy
    obtain ⟨p, hp⟩ := Option.isSome_iff_exists.mp hproxy
    have hc : createTaskRecaptcha c websiteURL recaptchaKey remote World.init =
        (Outcome.ok Float64.NaN,
          ⟨1, [Event.post createTaskURL (recaptchaBody c p websiteURL recaptchaKey), Event.log s]⟩) := by
      rw [createTaskRecaptcha_eq]
      simp [hp, World.init, hr, hid]
    refine ⟨?_, hnan, ?_⟩
    · simp [run, hc]
    · simp only [run, SendRecaptcha, bind_eq]
      rw [andThen_ok hc, hc]
      unfold Prog.andThen
      rw [hnan]
  · have hc : createTaskImage c imgString remote World.init =
        (Outcome.panic Fault.typeAssertion,
          ⟨1, [Event.post createTaskURL (imageBody c imgString)]⟩) := by
      rw [createTaskImage_eq]
      simp [World.init, hr, hid]
    have hsend : run (SendImage fuel c imgString) remote =
        (Outcome.panic Fault.typeAssertion,
          ⟨1, [Event.post createTaskURL (imageBody c imgString)]⟩) := by
      simp only [run, SendImage, bind_eq]
      unfold Prog.andThen
      rw [hc]
    rw [hsend]
    constructor
    · intro answer h
      cases h
    · simp [Event.isPoll, createTaskURL, getTaskResultURL]

/-- C4, amended, at the create-task response `{}`. -/
theorem missing_taskId_ends_before_any_poll_witness :
    ((run (createTaskRecaptcha exampleClient "https://example.com" "6Lc...") withoutTaskId).1 =
        Outcome.ok Float64.NaN ∧
      getTaskResult exampleClient Float64.NaN withoutTaskId World.init =
        (Outcome.fatal (Fault.unsupportedValue Float64.NaN), World.init) ∧
      run (SendRecaptcha 5 exampleClient "https://example.com" "6Lc...") withoutTaskId =
        (Outcome.fatal (Fault.unsupportedValue Float64.NaN),
          (run (createTaskRecaptcha exampleClient "https://example.com" "6Lc...") withoutTaskId).2)) ∧
    ((run (SendImage 5 exampleClient "aGVsbG8=") withoutTaskId).1 ≠ Outcome.ok "03AG..." ∧
      (run (SendImage 5 exampleClient "aGVsbG8=") withoutTaskId).2.trace.filter Event.isPoll = []) :=
  ⟨⟨((missing_taskId_ends_before_any_poll 5 exampleClient "https://example.com" "6Lc..." "aGVsbG8="
        withoutTaskId [] rfl rfl).1 rfl).1,
      ((missing_taskId_ends_before_any_poll 5 exampleClient "https://example.com" "6Lc..." "aGVsbG8="
        withoutTaskId [] rfl rfl).1 rfl).2.1 World.init,
      ((missing_taskId_ends_before_any_poll 5 exampleClient "https://example.com" "6Lc..." "aGVsbG8="
        withoutTaskId [] rfl rfl).1 rfl).2.2⟩,
    (missing_taskId_ends_before_any_poll 5 exampleClient "https://example.com" "6Lc..." "aGVsbG8="
      withoutTaskId [] rfl rfl).2.1 "03AG...",
    (missing_taskId_ends_before_any_poll 5 exampleClient "https://example.com" "6Lc..." "aGVsbG8="
      withoutTaskId [] rfl rfl).2.2⟩

/-- C5, refuted at the body `<html>`, which is not valid JSON and in which
the decoder finds no JSON value: `getTaskResult` returns normally with the
empty mapping, and `createTaskRecaptcha` returns normally with the
not-a-number sentinel; neither reports an error. -/
theorem malformed_json_goes_unreported :
    run (getTaskResult exampleClient fortyTwo) neverJSON =
      (Outcome.ok [],
        ⟨1, [Event.post getTaskResultURL (pollBody exampleClient fortyTwo), Event.log ""]⟩) ∧
    (run (createTaskRecaptcha exampleClient "https://example.com" "6Lc...") neverJSON).1 =
      Outcome.ok Float64.NaN := by
  constructor
  · rfl
  · rfl

/-- C5, amended: for every response body in which `Decode` finds no JSON
value, from either endpoint, the decode error is dropped and the body is read
as an empty mapping; no error is reported.  Each operation runs exactly as it
does when every such body is replaced by the empty object; in particular, on
such a body read to the end, `createTaskRecaptcha` (proxy set) returns the
not-a-number sentinel and `getTaskResult` (finite identifier) returns the
empty mapping. -/
theorem malformed_json_read_as_empty_object (fuel : Nat) (c : Client)
    (websiteURL recaptchaKey imgString : String) (taskID : Float64) (remote : Remote) (w : World) :
    createTaskRecaptcha c websiteURL recaptchaKey remote w =
      createTaskRecaptcha c websiteURL recaptchaKey (asEmptyObject remote) w ∧
    createTaskImage c imgString remote w = createTaskImage c imgString (asEmptyObject remote) w ∧
    getTaskResult c taskID remote w = getTaskResult c taskID (asEmptyObject remote) w ∧
    SendRecaptcha fuel c websiteURL recaptchaKey remote w =
      SendRecaptcha fuel c websiteURL recaptchaKey (asEmptyObject remote) w ∧
    SendImage fuel c imgString remote w = SendImage fuel c imgString (asEmptyObject remote) w ∧
    (∀ s, remote w.calls = HttpResult.resp ⟨Decoded.noValue, some s⟩ →
      (c.Proxy.isSome = true →
        (createTaskRecaptcha c websiteURL recaptchaKey remote w).1 = Outcome.ok Float64.NaN) ∧
      (taskID.isFinite = true → (getTaskResult c taskID remote w).1 = Outcome.ok [])) := by
  refine ⟨createTaskRecaptcha_asEmptyObject c websiteURL recaptchaKey remote w,
    createTaskImage_asEmptyObject c imgString remote w,
    getTaskResult_asEmptyObject c taskID remote w, ?_, ?_, ?_⟩
  · simp only [SendRecaptcha, bind_eq]
    exact andThen_agree remote (asEmptyObject remote)
      (createTaskRecaptcha_asEmptyObject c websiteURL recaptchaKey remote)
      (fun t w1 => polling_asEmptyObject c fuel "gRecaptchaResponse" remote t w1) w
  · simp only [SendImage, bind_eq]
    exact andThen_agree remote (asEmptyObject remote)
      (createTaskImage_asEmptyObject c imgString remote)
      (fun t w1 => polling_asEmptyObject c fuel "text" remote t w1) w
  · intro s hr
    constructor
    · intro hproxy
      obtain ⟨p, hp⟩ := Option.isSome_iff_exists.mp hproxy
      rw [createTaskRecaptcha_eq]
      simp [hp, hr, decode, GoMap.lookup]
    · intro hfin
      have hfin2 : (taskID.isNaN || taskID.isInf) = false := by
        simpa [Float64.isFinite] using hfin
      rw [getTaskResult_ok c taskID remote w hfin2 hr]
      rfl

/-- C5, amended, at a server in whose bodies the decoder never finds a JSON value. -/
theorem malformed_json_read_as_empty_object_witness :
    neverJSON World.init.calls = HttpResult.resp ⟨Decoded.noValue, some ""⟩ ∧
    (run (createTaskRecaptcha exampleClient "https://example.com" "6Lc...") neverJSON).1 =
      Outcome.ok Float64.NaN ∧
    (run (getTaskResult exampleClient fortyTwo) neverJSON).1 = Outcome.ok [] :=
  ⟨rfl,
    ((malformed_json_read_as_empty_object 1 exampleClient "https://example.com" "6Lc..." "" fortyTwo
      neverJSON World.init).2.2.2.2.2 "" rfl).1 rfl,
    ((malformed_json_read_as_empty_object 1 exampleClient "https://example.com" "6Lc..." "" fortyTwo
      neverJSON World.init).2.2.2.2.2 "" rfl).2 rfl⟩

end Anticaptcha
